import Mathlib

/-!
Shallow embedding of the Telemetry-Data-Analysis-System repository
(`src/models.py`, `src/crud.py`, `src/main.py`) in Lean 4.

Modelling conventions:
* Machine floats stored in the database are modelled as exact rationals (ℚ);
  the standardized score, which involves a square root, lives in ℝ.
* The value arriving in a request body (`Pydantic float`) is modelled by
  `FloatVal`, which keeps the non-finite payloads (NaN, ±∞) that Pydantic's
  default `float` validator accepts.
* Database tables are lists of rows; auto-increment ids are assigned from the
  list length.  The `unique=True` constraint on `anomalies.telemetry_id`
  (models.py line 31) is modelled inside `create_anomaly`, which fails exactly
  when a row with the same `telemetry_id` already exists — mirroring the
  `IntegrityError` SQLite raises on commit.
-/

namespace Telemetry

/-- A float value as it appears in a request body: Pydantic's `float` accepts
finite values and also NaN and the two infinities (its default
`allow_inf_nan=True`). -/
inductive FloatVal where
  | finite (q : ℚ)
  | nan
  | inf
  | neginf
deriving DecidableEq, Repr

/-- Whether a `FloatVal` is a finite number. -/
def FloatVal.isFinite : FloatVal → Bool
  | .finite _ => true
  | _ => false

/-- models.py `TelemetryDataCreate`: the Pydantic request model.
`device_id` and `metric_name` carry `min_length=1`; `metric_value` is a bare
`float` field with no finiteness constraint; `unit` is optional. -/
structure TelemetryDataCreate where
  timestamp : ℤ
  device_id : String
  metric_name : String
  metric_value : FloatVal
  unit : Option String
deriving DecidableEq, Repr

/-- Pydantic validation of `TelemetryDataCreate` as declared in models.py
lines 43–52: both strings must have length at least 1.  The `float` field
performs no finiteness check (Pydantic's default accepts NaN/inf). -/
def validateTelemetryDataCreate (t : TelemetryDataCreate) : Bool :=
  1 ≤ t.device_id.length && 1 ≤ t.metric_name.length

/-- A stored row of the `telemetry_data` table as seen by the ingestion
layer, keeping the raw (possibly non-finite) float. -/
structure RawReading where
  id : ℕ
  timestamp : ℤ
  device_id : String
  metric_name : String
  metric_value : FloatVal
  unit : Option String
deriving DecidableEq, Repr

/-- crud.py `create_telemetry_data` (lines 12–33) at the raw-float level:
builds a `TelemetryData` row from the validated request body, inserts it and
returns it with its auto-assigned id. -/
def createTelemetryDataRaw (store : List RawReading) (t : TelemetryDataCreate) :
    List RawReading × RawReading :=
  (store ++
      [{ id := store.length + 1
         timestamp := t.timestamp
         device_id := t.device_id
         metric_name := t.metric_name
         metric_value := t.metric_value
         unit := t.unit }],
    { id := store.length + 1
      timestamp := t.timestamp
      device_id := t.device_id
      metric_name := t.metric_name
      metric_value := t.metric_value
      unit := t.unit })

/-- main.py POST `/telemetry/` (lines 70–87) composed with FastAPI's request
validation: the body is validated against `TelemetryDataCreate` (a failure is
a 422 validation error, nothing stored), then `crud.create_telemetry_data`
stores the reading and the handler returns it. -/
def postTelemetryRaw (store : List RawReading) (t : TelemetryDataCreate) :
    Except String (List RawReading × RawReading) :=
  if validateTelemetryDataCreate t then
    Except.ok (createTelemetryDataRaw store t)
  else
    Except.error "validation error"

/-- models.py `TelemetryData`: a stored telemetry row, at the level used by
the anomaly-detection core (metric_value a finite number, per spec §3). -/
structure TelemetryData where
  id : ℕ
  timestamp : ℤ
  device_id : String
  metric_name : String
  metric_value : ℚ
  unit : Option String
deriving DecidableEq, Repr

/-- The `anomaly_type` label.  crud.py line 207 stores the string
`High Z-score ({z_score:.2f})`; the label is modelled structurally as the
constructor `highZScore` carrying the computed score, from which the
2-decimal rendering is determined. -/
inductive AnomalyType where
  | highZScore (score : ℝ)

/-- models.py `Anomaly`: a stored anomaly row. -/
structure Anomaly where
  id : ℕ
  telemetry_id : ℕ
  device_id : String
  metric_name : String
  metric_value : ℚ
  timestamp : ℤ
  anomaly_type : AnomalyType
  threshold_used : ℚ

/-- The fields of an anomaly row before the id is assigned (the dict built at
crud.py lines 201–209). -/
structure AnomalyData where
  telemetry_id : ℕ
  device_id : String
  metric_name : String
  metric_value : ℚ
  timestamp : ℤ
  anomaly_type : AnomalyType
  threshold_used : ℚ

/-- The database state seen by the detection core: the `telemetry_data` and
`anomalies` tables. -/
structure DB where
  telemetry : List TelemetryData
  anomalies : List Anomaly

/-- crud.py `create_telemetry_data` (lines 12–33) at the core level. -/
def create_telemetry_data (db : DB) (t : TelemetryData) : DB × TelemetryData :=
  ({ db with telemetry := db.telemetry ++ [{ t with id := db.telemetry.length + 1 }] },
    { t with id := db.telemetry.length + 1 })

/-- The anomaly row with its assigned id, built by `create_anomaly`. -/
def AnomalyData.withId (a : AnomalyData) (i : ℕ) : Anomaly :=
  { id := i
    telemetry_id := a.telemetry_id
    device_id := a.device_id
    metric_name := a.metric_name
    metric_value := a.metric_value
    timestamp := a.timestamp
    anomaly_type := a.anomaly_type
    threshold_used := a.threshold_used }

/-- crud.py `create_anomaly` (lines 145–153).  The insert commits against the
`unique=True` constraint on `anomalies.telemetry_id` (models.py line 31):
if a row with the same `telemetry_id` already exists the commit raises an
integrity error and no row is stored. -/
def create_anomaly (db : DB) (a : AnomalyData) : Except String (DB × Anomaly) :=
  if db.anomalies.any (fun x => x.telemetry_id == a.telemetry_id) then
    Except.error "UNIQUE constraint failed: anomalies.telemetry_id"
  else
    Except.ok
      ({ db with anomalies := db.anomalies ++ [a.withId (db.anomalies.length + 1)] },
        a.withId (db.anomalies.length + 1))

/-- The filter of the window query (crud.py lines 178–182): same device, same
metric, excluding the record under evaluation by id. -/
def matchesWindow (rec r : TelemetryData) : Bool :=
  r.device_id == rec.device_id && r.metric_name == rec.metric_name && r.id != rec.id

/-- The `order_by(timestamp.desc())` ordering of crud.py line 183. -/
def byTsDesc (a b : TelemetryData) : Prop := b.timestamp ≤ a.timestamp

instance : DecidableRel byTsDesc := fun a b =>
  inferInstanceAs (Decidable (b.timestamp ≤ a.timestamp))

instance : IsTotal TelemetryData byTsDesc :=
  ⟨fun a b => le_total b.timestamp a.timestamp⟩

instance : IsTrans TelemetryData byTsDesc :=
  ⟨fun _ _ _ h1 h2 => le_trans h2 h1⟩

/-- The window query of crud.py lines 177–185 at row level: filter by device,
metric and excluded id, order by timestamp descending, limit to
`window_size`. -/
def fetchWindowRows (db : DB) (rec : TelemetryData) (window_size : ℕ) :
    List TelemetryData :=
  (List.insertionSort byTsDesc (db.telemetry.filter (matchesWindow rec))).take window_size

/-- The fetched window of metric values (crud.py line 187):
`values = np.array([d.metric_value for d in recent_data])`. -/
def fetchWindow (db : DB) (rec : TelemetryData) (window_size : ℕ) : List ℚ :=
  (fetchWindowRows db rec window_size).map (fun r => r.metric_value)

/-- `np.mean` of a list of values: sum divided by length. -/
def mean (l : List ℚ) : ℚ := l.sum / l.length

/-- The population variance underlying `np.std` (ddof = 0): mean of squared
deviations from the mean. -/
def variance (l : List ℚ) : ℚ :=
  (l.map (fun x => (x - mean l) ^ 2)).sum / l.length

/-- `np.std` of the window: the square root of the population variance. -/
noncomputable def stdDev (l : List ℚ) : ℝ := Real.sqrt ((variance l : ℚ) : ℝ)

/-- The standardized deviation score of crud.py line 198:
`abs((float(v) - mean) / std_dev)`. -/
noncomputable def zscore (v : ℚ) (l : List ℚ) : ℝ :=
  |((v : ℝ) - ((mean l : ℚ) : ℝ)) / stdDev l|

/-- Decidable form of the comparison `z_score > z_score_threshold`
(crud.py line 200), valid whenever the variance of the window is positive:
either the threshold is negative (an absolute value always exceeds it) or the
squared deviation exceeds the squared threshold times the variance.
`thresholdExceeded_iff` below proves the equivalence with
`zscore v l > t`. -/
def thresholdExceeded (v : ℚ) (l : List ℚ) (t : ℚ) : Bool :=
  decide (t < 0) || decide (t ^ 2 * variance l < (v - mean l) ^ 2)

/-- The outcome of one invocation of the detector: either a normal return
carrying the database state and the optional anomaly, or a raised error
(integrity error from the anomaly insert) carrying the state left behind. -/
inductive DetectResult where
  | ok (db : DB) (a : Option Anomaly)
  | err (db : DB) (msg : String)

/-- The database state after a detector invocation. -/
def DetectResult.db : DetectResult → DB
  | .ok db _ => db
  | .err db _ => db

/-- Whether the invocation returned an anomaly verdict. -/
def DetectResult.flagged : DetectResult → Bool
  | .ok _ (some _) => true
  | _ => false

/-- Whether the invocation returned the no-verdict outcome `None`. -/
def DetectResult.noVerdict : DetectResult → Bool
  | .ok _ none => true
  | _ => false

/-- crud.py `detect_anomaly_zscore` (lines 156–211): fetch the window of
previous values for the same device and metric, return `None` when fewer than
5 values or zero standard deviation, otherwise compare the standardized score
against the threshold and persist an anomaly on a strict exceedance.
The source's branches `std_dev == 0` and `z_score > z_score_threshold` are
rendered by the decidable tests `variance values = 0` and
`thresholdExceeded`; `stdDev_eq_zero_iff` and `thresholdExceeded_iff` prove
them equivalent to the source's real-valued tests. -/
noncomputable def detect_anomaly_zscore (db : DB) (rec : TelemetryData)
    (window_size : ℕ) (threshold : ℚ) : DetectResult :=
  if (fetchWindow db rec window_size).length < 5 then
    DetectResult.ok db none
  else if variance (fetchWindow db rec window_size) = 0 then
    DetectResult.ok db none
  else if thresholdExceeded rec.metric_value (fetchWindow db rec window_size) threshold then
    match create_anomaly db
      { telemetry_id := rec.id
        device_id := rec.device_id
        metric_name := rec.metric_name
        metric_value := rec.metric_value
        timestamp := rec.timestamp
        anomaly_type :=
          AnomalyType.highZScore (zscore rec.metric_value (fetchWindow db rec window_size))
        threshold_used := threshold } with
    | Except.ok (db', a) => DetectResult.ok db' (some a)
    | Except.error m => DetectResult.err db m
  else
    DetectResult.ok db none

/-- main.py POST `/telemetry/` (lines 70–87) at the core level: the handler
calls `crud.create_telemetry_data` and returns the stored reading.  It makes
no other call — in particular it does not invoke `detect_anomaly_zscore`. -/
def create_telemetry_data_endpoint (db : DB) (t : TelemetryData) :
    DB × TelemetryData :=
  create_telemetry_data db t

/-- Uniqueness of `telemetry_id` across the `anomalies` table. -/
def UniqueTelemetryIds (db : DB) : Prop :=
  db.anomalies.Pairwise (fun a b => a.telemetry_id ≠ b.telemetry_id)

/-- The anomaly row built and persisted by `detect_anomaly_zscore` when the
score exceeds the threshold. -/
noncomputable def anomalyRow (db : DB) (rec : TelemetryData) (n : ℕ) (t : ℚ) :
    Anomaly :=
  { id := db.anomalies.length + 1
    telemetry_id := rec.id
    device_id := rec.device_id
    metric_name := rec.metric_name
    metric_value := rec.metric_value
    timestamp := rec.timestamp
    anomaly_type := AnomalyType.highZScore (zscore rec.metric_value (fetchWindow db rec n))
    threshold_used := t }

/-! Concrete instances used to exercise the definitions (the scenarios of
spec §8). -/

/-- A reading row for device `d`, metric `m`. -/
def mkRow (i : ℕ) (ts : ℤ) (v : ℚ) : TelemetryData :=
  { id := i, timestamp := ts, device_id := "d", metric_name := "m"
    metric_value := v, unit := none }

/-- Five stored readings with values 10, 11, 9, 10, 10 (the window of spec §8
scenario B). -/
def dbPrior : DB :=
  { telemetry := [mkRow 1 1 10, mkRow 2 2 11, mkRow 3 3 9, mkRow 4 4 10, mkRow 5 5 10]
    anomalies := [] }

/-- The scenario-B reading: value 30, stored with id 6. -/
def recB : TelemetryData := mkRow 6 6 30

/-- The scenario-B database after the new reading is stored. -/
def dbB : DB := { telemetry := dbPrior.telemetry ++ [recB], anomalies := [] }

/-- A database with only three prior readings for the device and metric
(spec §8 scenario C). -/
def dbShort : DB :=
  { telemetry := [mkRow 1 1 10, mkRow 2 2 11, mkRow 3 3 9, mkRow 4 4 1000]
    anomalies := [] }

/-- The reading evaluated against the three-value window. -/
def recShort : TelemetryData := mkRow 4 4 1000

/-- Scenario A of spec §8: a constant window of five readings of value 10,
plus the new reading of value 10. -/
def dbConst : DB :=
  { telemetry := [mkRow 1 1 10, mkRow 2 2 10, mkRow 3 3 10, mkRow 4 4 10,
      mkRow 5 5 10, mkRow 6 6 10]
    anomalies := [] }

/-- The scenario-A reading: value 10, id 6. -/
def recConst : TelemetryData := mkRow 6 6 10

/-- The request body ingested in scenario B, before storage. -/
def newB : TelemetryData := mkRow 0 6 30

/-- A request body with a NaN metric value and well-formed strings. -/
def tNan : TelemetryDataCreate :=
  { timestamp := 0, device_id := "d", metric_name := "m"
    metric_value := FloatVal.nan, unit := none }

/-! Bridging lemmas between the decidable tests used in the embedding and the
real-valued quantities of the source. -/

theorem variance_nonneg (l : List ℚ) : 0 ≤ variance l := by
  unfold variance
  apply div_nonneg
  · exact List.sum_nonneg (by
      intro x hx
      obtain ⟨y, _, rfl⟩ := List.mem_map.mp hx
      positivity)
  · positivity

theorem stdDev_nonneg (l : List ℚ) : 0 ≤ stdDev l := Real.sqrt_nonneg _

/-- The source's zero test `std_dev == 0` is equivalent to the rational test
`variance l = 0` used in the embedding. -/
theorem stdDev_eq_zero_iff (l : List ℚ) : stdDev l = 0 ↔ variance l = 0 := by
  unfold stdDev
  rw [Real.sqrt_eq_zero']
  constructor
  · intro h
    exact le_antisymm (by exact_mod_cast h) (variance_nonneg l)
  · intro h
    rw [h]
    simp

theorem stdDev_pos_iff (l : List ℚ) : 0 < stdDev l ↔ 0 < variance l := by
  unfold stdDev
  rw [Real.sqrt_pos]
  exact_mod_cast Iff.rfl

/-- The standardized score is the absolute deviation divided by the standard
deviation. -/
theorem zscore_eq_abs_div (v : ℚ) (l : List ℚ) :
    zscore v l = |(v : ℝ) - ((mean l : ℚ) : ℝ)| / stdDev l := by
  unfold zscore
  rw [abs_div, abs_of_nonneg (stdDev_nonneg l)]

/-- On a window of positive variance, the decidable test `thresholdExceeded`
agrees with the source's comparison `z_score > z_score_threshold`. -/
theorem thresholdExceeded_iff (v : ℚ) (l : List ℚ) (t : ℚ)
    (hv : 0 < variance l) :
    thresholdExceeded v l t = true ↔ (t : ℝ) < zscore v l := by
  have hσ : 0 < stdDev l := (stdDev_pos_iff l).mpr hv
  have hσ2 : stdDev l ^ 2 = ((variance l : ℚ) : ℝ) :=
    Real.sq_sqrt (by exact_mod_cast hv.le)
  rw [zscore_eq_abs_div]
  unfold thresholdExceeded
  rw [Bool.or_eq_true, decide_eq_true_eq, decide_eq_true_eq]
  constructor
  · rintro (ht | ht)
    · calc (t : ℝ) < 0 := by exact_mod_cast ht
        _ ≤ _ := div_nonneg (abs_nonneg _) (stdDev_nonneg l)

    · rcases lt_or_le t 0 with h0 | h0
      · calc (t : ℝ) < 0 := by exact_mod_cast h0
          _ ≤ _ := div_nonneg (abs_nonneg _) (stdDev_nonneg l)
      · have ht' : ((t : ℝ)) ^ 2 * ((variance l : ℚ) : ℝ) <
            ((v : ℝ) - ((mean l : ℚ) : ℝ)) ^ 2 := by exact_mod_cast ht
        have h0' : (0 : ℝ) ≤ (t : ℝ) := by exact_mod_cast h0
        rw [lt_div_iff₀ hσ]
        have habs : ((v : ℝ) - ((mean l : ℚ) : ℝ)) ^ 2 =
            |(v : ℝ) - ((mean l : ℚ) : ℝ)| ^ 2 := (sq_abs _).symm
        nlinarith [abs_nonneg ((v : ℝ) - ((mean l : ℚ) : ℝ)), hσ2, hσ]
  · intro ht
    rcases lt_or_le t 0 with h0 | h0
    · exact Or.inl h0
    · right
      have h0' : (0 : ℝ) ≤ (t : ℝ) := by exact_mod_cast h0
      rw [lt_div_iff₀ hσ] at ht
      have key : ((t : ℝ) * stdDev l) ^ 2 < |(v : ℝ) - ((mean l : ℚ) : ℝ)| ^ 2 :=
        pow_lt_pow_left₀ ht (mul_nonneg h0' (stdDev_nonneg l)) two_ne_zero
      have : ((t : ℝ)) ^ 2 * ((variance l : ℚ) : ℝ) <
          ((v : ℝ) - ((mean l : ℚ) : ℝ)) ^ 2 := by
        have habs : ((v : ℝ) - ((mean l : ℚ) : ℝ)) ^ 2 =
            |(v : ℝ) - ((mean l : ℚ) : ℝ)| ^ 2 := (sq_abs _).symm
        nlinarith [key, hσ2]
      exact_mod_cast this

/-- A window whose values are all equal has zero variance. -/
theorem variance_of_const (l : List ℚ) (c : ℚ) (h : ∀ x ∈ l, x = c) :
    variance l = 0 := by
  rcases eq_or_ne l [] with rfl | hne
  · simp [variance]
  · have hm : mean l = c := by
      unfold mean
      rw [List.sum_eq_card_nsmul l c h, nsmul_eq_mul]
      have hpos : 0 < l.length := List.length_pos.mpr hne
      have hlen : (l.length : ℚ) ≠ 0 := by exact_mod_cast hpos.ne'
      field_simp
    unfold variance
    rw [List.sum_eq_zero, zero_div]
    intro x hx
    obtain ⟨y, hy, rfl⟩ := List.mem_map.mp hx
    rw [h y hy, hm]
    ring

/-- The window fetch reads only the `telemetry_data` table. -/
theorem fetchWindow_congr (db db' : DB) (rec : TelemetryData) (n : ℕ)
    (h : db'.telemetry = db.telemetry) :
    fetchWindow db' rec n = fetchWindow db rec n := by
  unfold fetchWindow fetchWindowRows
  rw [h]

/-! Inversion and construction lemmas for the detector's branches. -/

theorem detect_short_window (db : DB) (rec : TelemetryData) (n : ℕ) (t : ℚ)
    (h : (fetchWindow db rec n).length < 5) :
    detect_anomaly_zscore db rec n t = DetectResult.ok db none := by
  unfold detect_anomaly_zscore
  simp only [if_pos h]

theorem detect_zero_variance (db : DB) (rec : TelemetryData) (n : ℕ) (t : ℚ)
    (h5 : ¬ (fetchWindow db rec n).length < 5)
    (hv : variance (fetchWindow db rec n) = 0) :
    detect_anomaly_zscore db rec n t = DetectResult.ok db none := by
  unfold detect_anomaly_zscore
  simp only [if_neg h5, if_pos hv]

theorem detect_below_threshold (db : DB) (rec : TelemetryData) (n : ℕ) (t : ℚ)
    (h5 : ¬ (fetchWindow db rec n).length < 5)
    (hv : ¬ variance (fetchWindow db rec n) = 0)
    (hth : ¬ thresholdExceeded rec.metric_value (fetchWindow db rec n) t = true) :
    detect_anomaly_zscore db rec n t = DetectResult.ok db none := by
  unfold detect_anomaly_zscore
  simp only [if_neg h5, if_neg hv, if_neg hth]

theorem detect_records (db : DB) (rec : TelemetryData) (n : ℕ) (t : ℚ)
    (h5 : ¬ (fetchWindow db rec n).length < 5)
    (hv : ¬ variance (fetchWindow db rec n) = 0)
    (hth : thresholdExceeded rec.metric_value (fetchWindow db rec n) t = true)
    (hfree : (db.anomalies.any fun x => x.telemetry_id == rec.id) = false) :
    detect_anomaly_zscore db rec n t =
      DetectResult.ok { db with anomalies := db.anomalies ++ [anomalyRow db rec n t] }
        (some (anomalyRow db rec n t)) := by
  unfold detect_anomaly_zscore
  simp only [if_neg h5, if_neg hv, if_pos hth]
  unfold create_anomaly
  simp only [hfree]
  rfl

theorem detect_integrity_error (db : DB) (rec : TelemetryData) (n : ℕ) (t : ℚ)
    (h5 : ¬ (fetchWindow db rec n).length < 5)
    (hv : ¬ variance (fetchWindow db rec n) = 0)
    (hth : thresholdExceeded rec.metric_value (fetchWindow db rec n) t = true)
    (hdup : (db.anomalies.any fun x => x.telemetry_id == rec.id) = true) :
    detect_anomaly_zscore db rec n t =
      DetectResult.err db "UNIQUE constraint failed: anomalies.telemetry_id" := by
  unfold detect_anomaly_zscore
  simp only [if_neg h5, if_neg hv, if_pos hth]
  unfold create_anomaly
  simp only [hdup]
  rfl

theorem detect_ok_some_inv (db : DB) (rec : TelemetryData) (n : ℕ) (t : ℚ)
    (db' : DB) (a : Anomaly)
    (h : detect_anomaly_zscore db rec n t = DetectResult.ok db' (some a)) :
    ¬ (fetchWindow db rec n).length < 5 ∧
    ¬ variance (fetchWindow db rec n) = 0 ∧
    thresholdExceeded rec.metric_value (fetchWindow db rec n) t = true ∧
    (db.anomalies.any fun x => x.telemetry_id == rec.id) = false ∧
    db' = { db with anomalies := db.anomalies ++ [a] } ∧
    a = anomalyRow db rec n t := by
  by_cases h5 : (fetchWindow db rec n).length < 5
  · rw [detect_short_window db rec n t h5] at h
    simp at h
  by_cases hv : variance (fetchWindow db rec n) = 0
  · rw [detect_zero_variance db rec n t h5 hv] at h
    simp at h
  by_cases hth : thresholdExceeded rec.metric_value (fetchWindow db rec n) t = true
  · by_cases hfree : (db.anomalies.any fun x => x.telemetry_id == rec.id) = false
    · rw [detect_records db rec n t h5 hv hth hfree] at h
      injection h with h1 h2
      injection h2 with h3
      subst h3
      subst h1
      exact ⟨h5, hv, hth, hfree, rfl, rfl⟩
    · have hdup : (db.anomalies.any fun x => x.telemetry_id == rec.id) = true := by
        revert hfree
        cases db.anomalies.any fun x => x.telemetry_id == rec.id <;> simp
      rw [detect_integrity_error db rec n t h5 hv hth hdup] at h
      cases h
  · rw [detect_below_threshold db rec n t h5 hv hth] at h
    simp at h

/-! Concrete evaluations on the scenario databases. -/

theorem fetchWindow_dbB : fetchWindow dbB recB 50 = [10, 10, 9, 11, 10] := by decide

theorem mean_windowB : mean [10, 10, 9, 11, 10] = 10 := by
  norm_num [mean]

theorem variance_windowB : variance [10, 10, 9, 11, 10] = 2 / 5 := by
  norm_num [variance, mean_windowB]

theorem zscore_windowB : zscore 30 [10, 10, 9, 11, 10] = 20 / Real.sqrt (2 / 5) := by
  unfold zscore stdDev
  rw [variance_windowB, mean_windowB]
  push_cast
  rw [abs_div, abs_of_nonneg (Real.sqrt_nonneg _)]
  norm_num

theorem zscore_windowB_bounds :
    (31.61 : ℝ) < zscore 30 [10, 10, 9, 11, 10] ∧
      zscore 30 [10, 10, 9, 11, 10] < 31.63 := by
  rw [zscore_windowB]
  have hσ : 0 < Real.sqrt (2 / 5 : ℝ) := Real.sqrt_pos.mpr (by norm_num)
  have hσ2 : Real.sqrt (2 / 5 : ℝ) ^ 2 = 2 / 5 := Real.sq_sqrt (by norm_num)
  constructor
  · rw [lt_div_iff₀ hσ]
    nlinarith [hσ, hσ2]
  · rw [div_lt_iff₀ hσ]
    nlinarith [hσ, hσ2]

theorem detect_dbB_eq :
    detect_anomaly_zscore dbB recB 50 (5 / 2) =
      DetectResult.ok
        { dbB with anomalies := dbB.anomalies ++ [anomalyRow dbB recB 50 (5 / 2)] }
        (some (anomalyRow dbB recB 50 (5 / 2))) := by
  apply detect_records
  · decide
  · rw [fetchWindow_dbB, variance_windowB]
    norm_num
  · show thresholdExceeded 30 (fetchWindow dbB recB 50) (5 / 2) = true
    rw [fetchWindow_dbB]
    unfold thresholdExceeded
    rw [variance_windowB, mean_windowB]
    simp only [Bool.or_eq_true, decide_eq_true_eq]
    norm_num
  · rfl

theorem fetchWindow_dbShort : fetchWindow dbShort recShort 50 = [9, 11, 10] := by decide

theorem fetchWindow_dbConst :
    fetchWindow dbConst recConst 50 = [10, 10, 10, 10, 10] := by decide

theorem detect_flagged_inv (db : DB) (rec : TelemetryData) (n : ℕ) (t : ℚ)
    (h : (detect_anomaly_zscore db rec n t).flagged = true) :
    ∃ db' a, detect_anomaly_zscore db rec n t = DetectResult.ok db' (some a) := by
  cases hd : detect_anomaly_zscore db rec n t with
  | ok db' oa =>
    cases oa with
    | none => rw [hd] at h; simp [DetectResult.flagged] at h
    | some a => exact ⟨db', a, rfl⟩
  | err db' m => rw [hd] at h; simp [DetectResult.flagged] at h

theorem detect_err_inv (db : DB) (rec : TelemetryData) (n : ℕ) (t : ℚ)
    (db' : DB) (m : String)
    (h : detect_anomaly_zscore db rec n t = DetectResult.err db' m) :
    db' = db := by
  by_cases h5 : (fetchWindow db rec n).length < 5
  · rw [detect_short_window db rec n t h5] at h
    cases h
  by_cases hv : variance (fetchWindow db rec n) = 0
  · rw [detect_zero_variance db rec n t h5 hv] at h
    cases h
  by_cases hth : thresholdExceeded rec.metric_value (fetchWindow db rec n) t = true
  · by_cases hfree : (db.anomalies.any fun x => x.telemetry_id == rec.id) = false
    · rw [detect_records db rec n t h5 hv hth hfree] at h
      cases h
    · have hdup : (db.anomalies.any fun x => x.telemetry_id == rec.id) = true := by
        revert hfree
        cases db.anomalies.any fun x => x.telemetry_id == rec.id <;> simp
      rw [detect_integrity_error db rec n t h5 hv hth hdup] at h
      injection h with h1 h2
      exact h1.symm
  · rw [detect_below_threshold db rec n t h5 hv hth] at h
    cases h

theorem detect_no_verdict_inv (db : DB) (rec : TelemetryData) (n : ℕ) (t : ℚ)
    (h : (detect_anomaly_zscore db rec n t).noVerdict = true) :
    (fetchWindow db rec n).length < 5 ∨ variance (fetchWindow db rec n) = 0 ∨
      thresholdExceeded rec.metric_value (fetchWindow db rec n) t = false := by
  by_cases h5 : (fetchWindow db rec n).length < 5
  · exact Or.inl h5
  by_cases hv : variance (fetchWindow db rec n) = 0
  · exact Or.inr (Or.inl hv)
  by_cases hth : thresholdExceeded rec.metric_value (fetchWindow db rec n) t = true
  · exfalso
    by_cases hfree : (db.anomalies.any fun x => x.telemetry_id == rec.id) = false
    · rw [detect_records db rec n t h5 hv hth hfree] at h
      simp [DetectResult.noVerdict] at h
    · have hdup : (db.anomalies.any fun x => x.telemetry_id == rec.id) = true := by
        revert hfree
        cases db.anomalies.any fun x => x.telemetry_id == rec.id <;> simp
      rw [detect_integrity_error db rec n t h5 hv hth hdup] at h
      simp [DetectResult.noVerdict] at h
  · exact Or.inr (Or.inr (Bool.not_eq_true _ ▸ hth))

/-- The exceedance test is antitone in the threshold: lowering the threshold
preserves an exceedance. -/
theorem thresholdExceeded_mono (v : ℚ) (l : List ℚ) {t t' : ℚ} (h : t' ≤ t)
    (ht : thresholdExceeded v l t = true) : thresholdExceeded v l t' = true := by
  unfold thresholdExceeded at ht ⊢
  rw [Bool.or_eq_true, decide_eq_true_eq, decide_eq_true_eq] at ht ⊢
  rcases ht with h0 | hq
  · exact Or.inl (lt_of_le_of_lt h h0)
  · rcases lt_or_le t' 0 with h0' | h0'
    · exact Or.inl h0'
    · right
      have hsq : t' ^ 2 ≤ t ^ 2 := by nlinarith
      nlinarith [variance_nonneg l]

/-- The detector never modifies the `telemetry_data` table. -/
theorem detect_db_telemetry (db : DB) (rec : TelemetryData) (n : ℕ) (t : ℚ) :
    (detect_anomaly_zscore db rec n t).db.telemetry = db.telemetry := by
  unfold detect_anomaly_zscore
  split
  · rfl
  split
  · rfl
  split
  · split
    · rename_i db' a heq
      unfold create_anomaly at heq
      split at heq
      · cases heq
      · injection heq with h1
        injection h1 with h2 h3
        subst h2
        rfl
    · rfl
  · rfl

/-- Pairwise-distinct telemetry ids bound the per-id multiplicity by one. -/
theorem countP_le_one_of_pairwise (l : List Anomaly)
    (hp : l.Pairwise fun a b => a.telemetry_id ≠ b.telemetry_id) (k : ℕ) :
    l.countP (fun x => x.telemetry_id == k) ≤ 1 := by
  induction l with
  | nil => simp
  | cons a l ih =>
    rw [List.countP_cons]
    rcases List.pairwise_cons.mp hp with ⟨ha, hl⟩
    by_cases hk : a.telemetry_id = k
    · have h0 : l.countP (fun x => x.telemetry_id == k) = 0 := by
        rw [List.countP_eq_zero]
        intro b hb
        simp only [beq_iff_eq]
        intro hbk
        exact ha b hb (hk.trans hbk.symm)
      simp [h0, hk]
    · have hcount := ih hl
      simp only [beq_iff_eq, hk, if_false]
      omega

/-! Claim theorems. -/

/-- C3: for every reading and every database state, whenever the fetched
window contains fewer than 5 values (including the empty window), the
detector returns `None` (no-verdict) regardless of the new reading's value,
and no Anomaly record is created: the database is left unchanged. -/
theorem small_window_no_verdict (db : DB) (rec : TelemetryData)
    (n : ℕ) (t : ℚ) (h : (fetchWindow db rec n).length < 5) :
    detect_anomaly_zscore db rec n t = DetectResult.ok db none ∧
      (detect_anomaly_zscore db rec n t).db.anomalies = db.anomalies := by
  have hd := detect_short_window db rec n t h
  exact ⟨hd, by rw [hd]; rfl⟩

theorem small_window_no_verdict_witness :
    (fetchWindow dbShort recShort 50).length < 5 ∧
      detect_anomaly_zscore dbShort recShort 50 (5 / 2) = DetectResult.ok dbShort none :=
  ⟨by decide, (small_window_no_verdict dbShort recShort 50 (5 / 2) (by decide)).1⟩

/-- C4: for every reading and every fetched window of at least 5 values in
which all values are identical, the population standard deviation is exactly
zero and the detector returns `None` (taking the zero-variance branch, which
never divides by the standard deviation), even when the new value equals the
window values. -/
theorem constant_window_no_verdict (db : DB) (rec : TelemetryData)
    (n : ℕ) (t : ℚ) (c : ℚ) (h5 : 5 ≤ (fetchWindow db rec n).length)
    (hc : ∀ x ∈ fetchWindow db rec n, x = c) :
    stdDev (fetchWindow db rec n) = 0 ∧
      detect_anomaly_zscore db rec n t = DetectResult.ok db none := by
  have hv : variance (fetchWindow db rec n) = 0 := variance_of_const _ c hc
  exact ⟨(stdDev_eq_zero_iff _).mpr hv,
    detect_zero_variance db rec n t (Nat.not_lt.mpr h5) hv⟩

theorem constant_window_no_verdict_witness :
    5 ≤ (fetchWindow dbConst recConst 50).length ∧
      (∀ x ∈ fetchWindow dbConst recConst 50, x = 10) ∧
      recConst.metric_value = 10 ∧
      detect_anomaly_zscore dbConst recConst 50 (5 / 2) = DetectResult.ok dbConst none :=
  ⟨by decide, by decide, rfl,
    (constant_window_no_verdict dbConst recConst 50 (5 / 2) 10 (by decide) (by decide)).2⟩

/-- C2: for every reading and every fetched window of at least 5 values whose
population standard deviation is strictly positive, and with no anomaly row
already recorded for the reading, the detector returns an anomaly verdict if
and only if `abs((new_value - mean) / std_dev)` strictly exceeds the
threshold; in particular a score exactly equal to the threshold yields no
anomaly. -/
theorem anomaly_iff_score_exceeds_threshold (db : DB) (rec : TelemetryData)
    (n : ℕ) (t : ℚ)
    (h5 : 5 ≤ (fetchWindow db rec n).length)
    (hσ : 0 < stdDev (fetchWindow db rec n))
    (hfree : (db.anomalies.any fun x => x.telemetry_id == rec.id) = false) :
    (detect_anomaly_zscore db rec n t).flagged = true ↔
      (t : ℝ) <
        |((rec.metric_value : ℝ) - ((mean (fetchWindow db rec n) : ℚ) : ℝ)) /
          stdDev (fetchWindow db rec n)| := by
  have hv : 0 < variance (fetchWindow db rec n) := (stdDev_pos_iff _).mp hσ
  have h5' : ¬ (fetchWindow db rec n).length < 5 := Nat.not_lt.mpr h5
  have hiff := thresholdExceeded_iff rec.metric_value (fetchWindow db rec n) t hv
  show _ ↔ (t : ℝ) < zscore rec.metric_value (fetchWindow db rec n)
  constructor
  · intro hf
    obtain ⟨db', a, hd⟩ := detect_flagged_inv db rec n t hf
    obtain ⟨-, -, hth, -, -, -⟩ := detect_ok_some_inv db rec n t db' a hd
    exact hiff.mp hth
  · intro hz
    rw [detect_records db rec n t h5' hv.ne' (hiff.mpr hz) hfree]
    rfl

theorem anomaly_iff_score_exceeds_threshold_witness :
    5 ≤ (fetchWindow dbB recB 50).length ∧
      (detect_anomaly_zscore dbB recB 50 (5 / 2)).flagged = true := by
  have hσ : 0 < stdDev (fetchWindow dbB recB 50) := by
    rw [stdDev_pos_iff, fetchWindow_dbB, variance_windowB]
    norm_num
  refine ⟨by decide, (anomaly_iff_score_exceeds_threshold dbB recB 50 (5 / 2)
    (by decide) hσ rfl).mpr ?_⟩
  show ((5 / 2 : ℚ) : ℝ) < zscore recB.metric_value (fetchWindow dbB recB 50)
  have h30 : recB.metric_value = (30 : ℚ) := rfl
  rw [h30, fetchWindow_dbB]
  have hb := zscore_windowB_bounds.1
  push_cast
  linarith

/-- C6: the fetched window consists exactly of the metric values of the rows
returned by the window query; every returned row is a stored reading with the
same device and metric and an id different from the excluded one; the rows
are ordered by timestamp descending; at most `window_size` values are
returned; and when at most `window_size` matching readings exist the window
is a permutation of all of them (possibly none). -/
theorem fetch_window_contract (db : DB) (rec : TelemetryData) (n : ℕ) :
    fetchWindow db rec n = (fetchWindowRows db rec n).map (fun r => r.metric_value) ∧
    (∀ r ∈ fetchWindowRows db rec n,
        r ∈ db.telemetry ∧ r.device_id = rec.device_id ∧
          r.metric_name = rec.metric_name ∧ r.id ≠ rec.id) ∧
    List.Sorted byTsDesc (fetchWindowRows db rec n) ∧
    (fetchWindow db rec n).length ≤ n ∧
    ((db.telemetry.filter (matchesWindow rec)).length ≤ n →
      (fetchWindowRows db rec n).Perm (db.telemetry.filter (matchesWindow rec))) := by
  refine ⟨rfl, ?_, ?_, ?_, ?_⟩
  · intro r hr
    have hr' : r ∈ List.insertionSort byTsDesc (db.telemetry.filter (matchesWindow rec)) :=
      (List.take_sublist n _).subset hr
    rw [List.mem_insertionSort] at hr'
    obtain ⟨hmem, hmatch⟩ := List.mem_filter.mp hr'
    unfold matchesWindow at hmatch
    simp only [Bool.and_eq_true, beq_iff_eq, bne_iff_ne, ne_eq] at hmatch
    exact ⟨hmem, hmatch.1.1, hmatch.1.2, hmatch.2⟩
  · exact List.Pairwise.sublist (List.take_sublist n _)
      (List.sorted_insertionSort byTsDesc _)
  · rw [fetchWindow, List.length_map, fetchWindowRows, List.length_take]
    exact min_le_left n _
  · intro hle
    unfold fetchWindowRows
    rw [List.take_of_length_le]
    · exact List.perm_insertionSort byTsDesc _
    · rw [(List.perm_insertionSort byTsDesc _).length_eq]
      exact hle

/-- C8: whenever the detector returns an anomaly verdict, exactly one Anomaly
record is appended whose device_id, metric_name, metric_value and timestamp
equal those of the triggering reading, whose telemetry_id equals the
reading's id, whose threshold_used equals the threshold applied, and whose
anomaly_type is the high-z-score label carrying the computed score (the
score the source renders to 2 decimals inside the label). -/
theorem anomaly_record_copies_reading (db : DB) (rec : TelemetryData)
    (n : ℕ) (t : ℚ) (db' : DB) (a : Anomaly)
    (h : detect_anomaly_zscore db rec n t = DetectResult.ok db' (some a)) :
    db'.anomalies = db.anomalies ++ [a] ∧
    db'.telemetry = db.telemetry ∧
    a.device_id = rec.device_id ∧ a.metric_name = rec.metric_name ∧
    a.metric_value = rec.metric_value ∧ a.timestamp = rec.timestamp ∧
    a.telemetry_id = rec.id ∧ a.threshold_used = t ∧
    a.anomaly_type =
      AnomalyType.highZScore (zscore rec.metric_value (fetchWindow db rec n)) := by
  obtain ⟨-, -, -, -, hdb, ha⟩ := detect_ok_some_inv db rec n t db' a h
  subst hdb
  subst ha
  exact ⟨rfl, rfl, rfl, rfl, rfl, rfl, rfl, rfl, rfl⟩

theorem anomaly_record_copies_reading_witness :
    ∃ db' a, detect_anomaly_zscore dbB recB 50 (5 / 2) = DetectResult.ok db' (some a) ∧
      a.telemetry_id = 6 ∧ a.threshold_used = 5 / 2 ∧ a.metric_value = 30 ∧
      a.device_id = "d" ∧ a.metric_name = "m" ∧ a.timestamp = 6 ∧
      ∃ s, a.anomaly_type = AnomalyType.highZScore s ∧
        (31.61 : ℝ) < s ∧ s < 31.63 := by
  refine ⟨_, _, detect_dbB_eq, ?_⟩
  obtain ⟨-, -, hdev, hname, hval, hts, hid, hth, htype⟩ :=
    anomaly_record_copies_reading dbB recB 50 (5 / 2) _ _ detect_dbB_eq
  refine ⟨hid, hth, hval, hdev, hname, hts,
    zscore recB.metric_value (fetchWindow dbB recB 50), htype, ?_, ?_⟩
  · have h30 : recB.metric_value = (30 : ℚ) := rfl
    rw [h30, fetchWindow_dbB]
    exact zscore_windowB_bounds.1
  · have h30 : recB.metric_value = (30 : ℚ) := rfl
    rw [h30, fetchWindow_dbB]
    exact zscore_windowB_bounds.2

/-- C9: a no-verdict outcome of the scorer (insufficient data, zero variance,
or a score not strictly above the threshold) is silent: the detector returns
`None` without raising and leaves the database unchanged.  Furthermore the
detector never touches the telemetry store, and when recording the anomaly
fails with the integrity error, the state handed back is the input state, so
the already-stored reading is never lost. -/
theorem no_verdict_silent_reading_kept (db : DB) (rec : TelemetryData)
    (n : ℕ) (t : ℚ) :
    (detect_anomaly_zscore db rec n t).db.telemetry = db.telemetry ∧
    (((fetchWindow db rec n).length < 5 ∨ variance (fetchWindow db rec n) = 0 ∨
        zscore rec.metric_value (fetchWindow db rec n) ≤ (t : ℝ)) →
      detect_anomaly_zscore db rec n t = DetectResult.ok db none) ∧
    (∀ db' m, detect_anomaly_zscore db rec n t = DetectResult.err db' m →
      db' = db ∧ (rec ∈ db.telemetry → rec ∈ db'.telemetry)) := by
  refine ⟨detect_db_telemetry db rec n t, ?_, ?_⟩
  · intro hcase
    by_cases h5 : (fetchWindow db rec n).length < 5
    · exact detect_short_window db rec n t h5
    by_cases hv : variance (fetchWindow db rec n) = 0
    · exact detect_zero_variance db rec n t h5 hv
    · have hvpos : 0 < variance (fetchWindow db rec n) :=
        lt_of_le_of_ne (variance_nonneg _) (Ne.symm hv)
      rcases hcase with h | h | h
      · exact absurd h h5
      · exact absurd h hv
      · refine detect_below_threshold db rec n t h5 hv ?_
        intro hth
        exact absurd ((thresholdExceeded_iff _ _ _ hvpos).mp hth) (not_lt.mpr h)
  · intro db' m h
    obtain rfl := detect_err_inv db rec n t db' m h
    exact ⟨rfl, fun hmem => hmem⟩

/-- C10: the anomaly verdict is monotone in the threshold.  The computed
score does not depend on the threshold, so an anomaly verdict at threshold
`t` persists at every threshold `t' ≤ t`, and a no-verdict at `t` persists at
every threshold `t'' ≥ t`. -/
theorem verdict_monotone_in_threshold (db : DB) (rec : TelemetryData)
    (n : ℕ) (t t' t'' : ℚ) (h1 : t' ≤ t) (h2 : t ≤ t'') :
    ((detect_anomaly_zscore db rec n t).flagged = true →
      (detect_anomaly_zscore db rec n t').flagged = true) ∧
    ((detect_anomaly_zscore db rec n t).noVerdict = true →
      (detect_anomaly_zscore db rec n t'').noVerdict = true) := by
  constructor
  · intro hf
    obtain ⟨db1, a, hd⟩ := detect_flagged_inv db rec n t hf
    obtain ⟨h5, hv, hth, hfree, -, -⟩ := detect_ok_some_inv db rec n t db1 a hd
    rw [detect_records db rec n t' h5 hv (thresholdExceeded_mono _ _ h1 hth) hfree]
    rfl
  · intro hn
    rcases detect_no_verdict_inv db rec n t hn with h5 | hv | hth
    · rw [detect_short_window db rec n t'' h5]
      rfl
    · by_cases h5 : (fetchWindow db rec n).length < 5
      · rw [detect_short_window db rec n t'' h5]
        rfl
      · rw [detect_zero_variance db rec n t'' h5 hv]
        rfl
    · by_cases h5 : (fetchWindow db rec n).length < 5
      · rw [detect_short_window db rec n t'' h5]
        rfl
      by_cases hv : variance (fetchWindow db rec n) = 0
      · rw [detect_zero_variance db rec n t'' h5 hv]
        rfl
      · have hth'' : ¬ thresholdExceeded rec.metric_value (fetchWindow db rec n) t'' = true := by
          intro hcon
          have hmono := thresholdExceeded_mono rec.metric_value (fetchWindow db rec n) h2 hcon
          rw [hth] at hmono
          cases hmono
        rw [detect_below_threshold db rec n t'' h5 hv hth'']
        rfl

/-- C5: telemetry_id stays unique across Anomaly records under every detector
invocation (so at most one Anomaly exists per Reading id in every reachable
state), and invoking the detector a second time on the same already-flagged
reading with the same window is rejected by the uniqueness backstop, leaving
exactly one Anomaly record for that reading. -/
theorem at_most_one_anomaly_per_reading (db : DB) (rec : TelemetryData)
    (n : ℕ) (t : ℚ) (hu : UniqueTelemetryIds db) :
    UniqueTelemetryIds (detect_anomaly_zscore db rec n t).db ∧
    (∀ k, ((detect_anomaly_zscore db rec n t).db.anomalies.countP
        (fun x => x.telemetry_id == k)) ≤ 1) ∧
    (∀ db' a, detect_anomaly_zscore db rec n t = DetectResult.ok db' (some a) →
      detect_anomaly_zscore db' rec n t =
        DetectResult.err db' "UNIQUE constraint failed: anomalies.telemetry_id" ∧
      (db'.anomalies.countP (fun x => x.telemetry_id == rec.id)) = 1) := by
  by_cases h5 : (fetchWindow db rec n).length < 5
  · rw [detect_short_window db rec n t h5]
    exact ⟨hu, fun k => countP_le_one_of_pairwise _ hu k, fun db' a h => by simp at h⟩
  by_cases hv : variance (fetchWindow db rec n) = 0
  · rw [detect_zero_variance db rec n t h5 hv]
    exact ⟨hu, fun k => countP_le_one_of_pairwise _ hu k, fun db' a h => by simp at h⟩
  by_cases hth : thresholdExceeded rec.metric_value (fetchWindow db rec n) t = true
  · by_cases hfree : (db.anomalies.any fun x => x.telemetry_id == rec.id) = false
    · rw [detect_records db rec n t h5 hv hth hfree]
      have hnotin : ∀ x ∈ db.anomalies, x.telemetry_id ≠ rec.id := by
        intro x hx hxk
        have hany : (db.anomalies.any fun x => x.telemetry_id == rec.id) = true :=
          List.any_eq_true.mpr ⟨x, hx, beq_iff_eq.mpr hxk⟩
        rw [hfree] at hany
        cases hany
      have hpair :
          UniqueTelemetryIds
            { db with anomalies := db.anomalies ++ [anomalyRow db rec n t] } := by
        unfold UniqueTelemetryIds
        rw [List.pairwise_append]
        refine ⟨hu, List.pairwise_singleton _ _, ?_⟩
        intro x hx y hy
        rw [List.mem_singleton] at hy
        subst hy
        exact hnotin x hx
      refine ⟨hpair, fun k => countP_le_one_of_pairwise _ hpair k, ?_⟩
      intro db' a h
      injection h with hdb hsome
      injection hsome with ha
      subst ha
      subst hdb
      constructor
      · have hfw := fetchWindow_congr db
          { db with anomalies := db.anomalies ++ [anomalyRow db rec n t] } rec n rfl
        apply detect_integrity_error
        · rw [hfw]
          exact h5
        · rw [hfw]
          exact hv
        · rw [hfw]
          exact hth
        · apply List.any_eq_true.mpr
          refine ⟨anomalyRow db rec n t, ?_, ?_⟩
          · simp
          · exact beq_iff_eq.mpr rfl
      · rw [List.countP_append]
        have h0 : db.anomalies.countP (fun x => x.telemetry_id == rec.id) = 0 := by
          rw [List.countP_eq_zero]
          intro b hb
          simp only [beq_iff_eq]
          exact hnotin b hb
        rw [h0]
        simp [List.countP_cons, anomalyRow]
    · have hdup : (db.anomalies.any fun x => x.telemetry_id == rec.id) = true := by
        revert hfree
        cases db.anomalies.any fun x => x.telemetry_id == rec.id <;> simp
      rw [detect_integrity_error db rec n t h5 hv hth hdup]
      exact ⟨hu, fun k => countP_le_one_of_pairwise _ hu k, fun db' a h => by simp at h⟩
  · rw [detect_below_threshold db rec n t h5 hv hth]
    exact ⟨hu, fun k => countP_le_one_of_pairwise _ hu k, fun db' a h => by simp at h⟩

theorem at_most_one_anomaly_per_reading_witness :
    UniqueTelemetryIds dbB ∧
      ∀ k, ((detect_anomaly_zscore dbB recB 50 (5 / 2)).db.anomalies.countP
        (fun x => x.telemetry_id == k)) ≤ 1 :=
  ⟨List.Pairwise.nil,
    (at_most_one_anomaly_per_reading dbB recB 50 (5 / 2) List.Pairwise.nil).2.1⟩

theorem verdict_monotone_in_threshold_witness :
    (2 : ℚ) ≤ 5 / 2 ∧ (detect_anomaly_zscore dbB recB 50 2).flagged = true :=
  ⟨by norm_num,
    (verdict_monotone_in_threshold dbB recB 50 (5 / 2) 2 3 (by norm_num) (by norm_num)).1
      (by rw [detect_dbB_eq]; rfl)⟩

/-- C1 (refuting the claimed wiring): the ingestion endpoint of main.py only
stores the reading — it never invokes `detect_anomaly_zscore`, so the
anomalies table is unchanged by every ingestion; in particular, ingesting the
scenario-B reading (value 30 against window 10, 11, 9, 10, 10) leaves the
anomalies table empty even though invoking the detector on the freshly stored
reading flags it. -/
theorem ingestion_endpoint_never_detects :
    (∀ db t, ((create_telemetry_data_endpoint db t).1).anomalies = db.anomalies) ∧
    create_telemetry_data_endpoint dbPrior newB = (dbB, recB) ∧
    (create_telemetry_data_endpoint dbPrior newB).1.anomalies = [] ∧
    (detect_anomaly_zscore dbB recB 50 (5 / 2)).flagged = true := by
  refine ⟨fun db t => rfl, rfl, rfl, ?_⟩
  rw [detect_dbB_eq]
  rfl

/-- C7 (counterexample): a reading whose metric_value is NaN but whose
device_id and metric_name are well-formed passes the declared validation and
is stored, so a malformed (non-finite) reading is not rejected before
storage. -/
theorem nan_reading_accepted_and_stored :
    tNan.metric_value.isFinite = false ∧
      validateTelemetryDataCreate tNan = true ∧
      postTelemetryRaw [] tNan =
        Except.ok
          ([{ id := 1, timestamp := 0, device_id := "d", metric_name := "m"
              metric_value := FloatVal.nan, unit := none }],
            { id := 1, timestamp := 0, device_id := "d", metric_name := "m"
              metric_value := FloatVal.nan, unit := none }) :=
  ⟨rfl, rfl, rfl⟩

/-- C7 (amended): ingestion fails with a validation error exactly when
device_id or metric_name is empty, and in that case no Reading record is
produced; a successful ingestion appends exactly the one stored record,
which keeps the metric_value unchanged — including non-finite values, which
the declared validation does not reject. -/
theorem validation_rejects_exactly_empty_strings (store : List RawReading)
    (t : TelemetryDataCreate) :
    ((∃ m, postTelemetryRaw store t = Except.error m) ↔
      (t.device_id.length = 0 ∨ t.metric_name.length = 0)) ∧
    (∀ st r, postTelemetryRaw store t = Except.ok (st, r) →
      st = store ++ [r] ∧ r.metric_value = t.metric_value) := by
  constructor
  · unfold postTelemetryRaw
    split
    · rename_i hval
      unfold validateTelemetryDataCreate at hval
      rw [Bool.and_eq_true, decide_eq_true_eq, decide_eq_true_eq] at hval
      constructor
      · rintro ⟨m, hm⟩
        simp at hm
      · intro hlen
        rcases hlen with h0 | h0 <;> omega
    · rename_i hval
      unfold validateTelemetryDataCreate at hval
      simp only [Bool.and_eq_true, decide_eq_true_eq, not_and_or, not_le] at hval
      constructor
      · intro _
        rcases hval with h0 | h0
        · exact Or.inl (Nat.lt_one_iff.mp h0)
        · exact Or.inr (Nat.lt_one_iff.mp h0)
      · intro _
        exact ⟨_, rfl⟩
  · unfold postTelemetryRaw
    split
    · intro st r h
      injection h with h1
      unfold createTelemetryDataRaw at h1
      injection h1 with h2 h3
      subst h3
      subst h2
      exact ⟨rfl, rfl⟩
    · intro st r h
      cases h

end Telemetry
